import Mathlib

/-!
Shallow embedding of the municipal community-services registry client
(`src/utils.rs`, `src/database.rs`, `src/models.rs`, `src/ui/queries.rs`,
`src/ui/insertions.rs`, `src/ui/dashboard.rs`), together with theorems
settling the behavioural claims about it.

Conventions of the embedding:
* `chrono::NaiveDate` becomes the `Date` structure below; the ambient
  `Local::now()` date of `calculate_age` is passed as an explicit `today`
  parameter.
* The live PostgreSQL store becomes an explicit `Store` value (one list of
  rows per table name appearing in the SQL text, plus the store-assigned
  id counters).  `ORDER BY` clauses become `List.insertionSort` with the
  order the SQL names.
* Every `DatabaseManager` operation is a pure function from the manager
  state and the store to a `DbResult`: the returned value (`Except` for
  Rust's `anyhow::Result`), the resulting store, and the list of SQL
  statements actually issued to the store.
* Rust's `regex` matches are embedded as their existential-split
  semantics, made executable by bounded search over split positions.
* The tokio mpsc unbounded channel becomes the `Bridge` queue, and each
  view controller's poll function becomes a pure state transformer.
-/

namespace CTest

/-- Calendar date, standing in for `chrono::NaiveDate`
(`year()` is an `i32`, `month()`/`day()` are `u32`). -/
structure Date where
  year : Int
  month : Nat
  day : Nat
deriving DecidableEq, Repr

/-- Embedding of `utils::calculate_age` (src/utils.rs:37-47), with the
`Local::now()` reference date passed explicitly as `today`. -/
def calculate_age (today : Date) (birth_date : Date) : Int :=
  let age := today.year - birth_date.year
  if today.month < birth_date.month ∨
      (today.month = birth_date.month ∧ today.day < birth_date.day) then
    age - 1
  else
    age

/-- Character class `[0-9Kk]` of the RUT regex. -/
def isRutDv (c : Char) : Bool := c.isDigit || c == 'K' || c == 'k'

/-- Embedding of the anchored regex `^[0-9]{7,8}-[0-9Kk]$` used by
`utils::validate_rut` (src/utils.rs:12-15) and by
`insertions::validate_rut_format` (src/ui/insertions.rs:35-39): the match
consumes 7 or 8 digits, a literal dash, and one check character, with
nothing left over. -/
def rutMatch (cs : List Char) : Bool :=
  ((cs.take 7).all Char.isDigit &&
    match cs.drop 7 with
    | ['-', d] => isRutDv d
    | _ => false) ||
  ((cs.take 8).all Char.isDigit &&
    match cs.drop 8 with
    | ['-', d] => isRutDv d
    | _ => false)

/-- Embedding of `utils::validate_rut` (src/utils.rs:12-15). -/
def validate_rut (rut : String) : Bool := rutMatch rut.data

/-- Character class `[A-Za-z0-9._%+-]` (local part of the email regex). -/
def isEmailLocalChar (c : Char) : Bool :=
  c.isAlpha || c.isDigit || c == '.' || c == '_' || c == '%' || c == '+' || c == '-'

/-- Character class `[A-Za-z0-9.-]` (domain part of the email regex). -/
def isEmailDomainChar (c : Char) : Bool :=
  c.isAlpha || c.isDigit || c == '.' || c == '-'

/-- Embedding of the anchored regex
`^[A-Za-z0-9._%+-]+@[A-Za-z0-9.-]+\.[A-Za-z]{2,}$` used by
`utils::validate_email` (src/utils.rs:17-20), as its existential-split
semantics: some split into a non-empty local part, a literal `@`, a
non-empty domain part, a literal dot, and a final run of at least two
letters.  The split positions are searched exhaustively, which is
equivalent to the regex engine's backtracking. -/
def emailMatch (cs : List Char) : Bool :=
  (List.range (cs.length + 1)).any fun i =>
    match cs.drop i with
    | '@' :: r =>
      !(cs.take i).isEmpty && (cs.take i).all isEmailLocalChar &&
      (List.range (r.length + 1)).any fun j =>
        match r.drop j with
        | '.' :: t =>
          !(r.take j).isEmpty && (r.take j).all isEmailDomainChar &&
          Nat.ble 2 t.length && t.all Char.isAlpha
        | _ => false
    | _ => false

/-- Embedding of `utils::validate_email` (src/utils.rs:17-20). -/
def validate_email (email : String) : Bool := emailMatch email.data

/-! ### Entity records (src/models.rs) -/

/-- `models::MacroSector`. -/
structure MacroSector where
  mac_id : Int
  mac_nombre : String
deriving DecidableEq, Repr

/-- `models::UnidadVecinal` (the `mac_nombre` field is display-only,
populated by the left join in `get_unidades_vecinales`). -/
structure UnidadVecinal where
  uv_id : Int
  uv_nombre : String
  uv_macid : Int
  mac_nombre : Option String
deriving DecidableEq, Repr

/-- `models::Genero`. -/
structure Genero where
  gen_id : Int
  gen_genero : String
deriving DecidableEq, Repr

/-- `models::Nacionalidad`. -/
structure Nacionalidad where
  nac_id : Int
  nac_nacionalidad : String
deriving DecidableEq, Repr

/-- `models::OrganizacionComunitaria`. -/
structure OrganizacionComunitaria where
  org_id : Int
  org_nombre : String
  org_direccion : String
  org_uvid : Int
  org_fechaconst : Date
  org_perjuridica : String
  org_email : Option String
  uv_nombre : Option String
deriving DecidableEq, Repr

/-- `models::PersonaMayor` (the last three fields are display-only join
columns, set to `None` by every code path modelled here). -/
structure PersonaMayor where
  per_id : Int
  per_rut : String
  per_prinombre : String
  per_segnombre : Option String
  per_priapellido : String
  per_segapellido : Option String
  per_genid : Int
  per_nacid : Int
  per_fechadenac : Date
  per_direccion : String
  per_email : Option String
  per_uvid : Int
  gen_genero : Option String
  nac_nacionalidad : Option String
  uv_nombre : Option String
deriving DecidableEq, Repr

/-- `models::Taller`. -/
structure Taller where
  tal_id : Int
  tal_nombre : String
deriving DecidableEq, Repr

/-- `models::Actividad`. -/
structure Actividad where
  act_id : Int
  act_nombre : String
  act_uvid : Int
  act_fecha_ini : Date
  act_fecha_fin : Option Date
  act_descripcion : Option String
  uv_nombre : Option String
deriving DecidableEq, Repr

/-- `models::Viaje`. -/
structure Viaje where
  via_id : Int
  via_nombre : String
  via_destino : String
  via_fecha_salida : Date
  via_fecha_regreso : Option Date
  via_uvid : Int
  uv_nombre : Option String
deriving DecidableEq, Repr

/-- `models::PersonaFilter`. -/
structure PersonaFilter where
  nombre : String
  apellido : String
  rut : String
  genero_id : Option Int
  nacionalidad_id : Option Int
  unidad_vecinal_id : Option Int
  macro_sector_id : Option Int
  edad_min : Option Int
  edad_max : Option Int
deriving DecidableEq, Repr

/-- `PersonaFilter::default()` (derived `Default`). -/
def PersonaFilter.default : PersonaFilter :=
  ⟨"", "", "", none, none, none, none, none, none⟩

/-- `models::OrganizacionFilter`. -/
structure OrganizacionFilter where
  nombre : String
  unidad_vecinal_id : Option Int
  macro_sector_id : Option Int
  fecha_const_desde : Option Date
  fecha_const_hasta : Option Date
deriving DecidableEq, Repr

/-- `OrganizacionFilter::default()` (derived `Default`). -/
def OrganizacionFilter.default : OrganizacionFilter :=
  ⟨"", none, none, none, none⟩

/-- `models::ActividadFilter`. -/
structure ActividadFilter where
  nombre : String
  unidad_vecinal_id : Option Int
  macro_sector_id : Option Int
  fecha_desde : Option Date
  fecha_hasta : Option Date
deriving DecidableEq, Repr

/-- `ActividadFilter::default()` (derived `Default`). -/
def ActividadFilter.default : ActividadFilter :=
  ⟨"", none, none, none, none⟩

/-- `models::DashboardStats`. -/
structure DashboardStats where
  total_personas : Int
  total_organizaciones : Int
  total_actividades : Int
  total_viajes : Int
  personas_por_macro : List (String × Int)
  actividades_mes_actual : Int
  nuevas_personas_mes : Int
deriving DecidableEq, Repr

/-- `DashboardStats::default()` (derived `Default`: every count zero, the
per-macro-sector breakdown empty). -/
def DashboardStats.default : DashboardStats := ⟨0, 0, 0, 0, [], 0, 0⟩

/-! ### The relational store

The SQL text of `src/database.rs` names its tables explicitly; the store
is modelled with one list of rows per table name occurring in that text
(distinct table names denote disjoint tables), plus one store-assigned
id counter per table that receives inserts.  Note that the SQL of
`insert_actividad` and `get_dashboard_stats` names `act_actividades`
while the SQL of `get_actividades` names `actividades`; the model keeps
those two tables separate, exactly as the backing store would. -/

structure Store where
  per_personasmayores : List PersonaMayor
  org_orgcomunitarias : List OrganizacionComunitaria
  act_actividades : List Actividad
  actividades : List Actividad
  via_viajes : List Viaje
  gen_generos : List Genero
  nac_nacionalidades : List Nacionalidad
  uv_unidadesvecinales : List UnidadVecinal
  mac_macrosectores : List MacroSector
  tal_talleres : List Taller
  nextPerId : Int
  nextOrgId : Int
  nextActId : Int
  nextMacId : Int
  nextUvId : Int
  nextTalId : Int
  nextGenId : Int
  nextNacId : Int
deriving DecidableEq, Repr

/-- The table name in the SQL of `insert_actividad`
(src/database.rs:286) and in the activity count of
`get_dashboard_stats` (src/database.rs:63). -/
def insertActividadTable : String := "act_actividades"

/-- The table name in the SQL of `get_actividades`
(src/database.rs:200). -/
def getActividadesTable : String := "actividades"

/-! ### Row orderings (the `ORDER BY` clauses) -/

/-- `ORDER BY per_priapellido, per_prinombre` of `get_personas_mayores`:
lexicographic on (family name, given name). -/
def personaOrder (a b : PersonaMayor) : Prop :=
  a.per_priapellido < b.per_priapellido ∨
    (a.per_priapellido = b.per_priapellido ∧ a.per_prinombre ≤ b.per_prinombre)

instance : DecidableRel personaOrder := fun _ _ =>
  inferInstanceAs (Decidable (_ ∨ _))

instance : IsTotal PersonaMayor personaOrder where
  total a b := by
    rcases lt_trichotomy a.per_priapellido b.per_priapellido with h | h | h
    · exact Or.inl (Or.inl h)
    · rcases le_total a.per_prinombre b.per_prinombre with h2 | h2
      · exact Or.inl (Or.inr ⟨h, h2⟩)
      · exact Or.inr (Or.inr ⟨h.symm, h2⟩)
    · exact Or.inr (Or.inl h)

instance : IsTrans PersonaMayor personaOrder where
  trans a b c hab hbc := by
    rcases hab with h1 | ⟨e1, l1⟩
    · rcases hbc with h2 | ⟨e2, _⟩
      · exact Or.inl (h1.trans h2)
      · exact Or.inl (e2 ▸ h1)
    · rcases hbc with h2 | ⟨e2, l2⟩
      · exact Or.inl (e1 ▸ h2)
      · exact Or.inr ⟨e1.trans e2, l1.trans l2⟩

/-- `ORDER BY org_nombre` of `get_organizaciones`. -/
def orgOrder (a b : OrganizacionComunitaria) : Prop :=
  a.org_nombre ≤ b.org_nombre

instance : DecidableRel orgOrder := fun _ _ =>
  inferInstanceAs (Decidable (_ ≤ _))

instance : IsTotal OrganizacionComunitaria orgOrder :=
  ⟨fun a b => le_total a.org_nombre b.org_nombre⟩

instance : IsTrans OrganizacionComunitaria orgOrder :=
  ⟨fun _ _ _ h1 h2 => le_trans h1 h2⟩

/-- Calendar order on dates: lexicographic on (year, month, day). -/
def Date.le (a b : Date) : Prop :=
  a.year < b.year ∨
    (a.year = b.year ∧
      (a.month < b.month ∨ (a.month = b.month ∧ a.day ≤ b.day)))

instance : DecidableRel Date.le := fun _ _ =>
  inferInstanceAs (Decidable (_ ∨ _))

/-- `ORDER BY act_fecha_ini DESC` of `get_actividades`: descending start
date. -/
def actOrder (a b : Actividad) : Prop :=
  Date.le b.act_fecha_ini a.act_fecha_ini

instance : DecidableRel actOrder := fun _ _ =>
  inferInstanceAs (Decidable (Date.le _ _))

instance : IsTotal Actividad actOrder where
  total a b := by
    unfold actOrder Date.le
    omega

instance : IsTrans Actividad actOrder where
  trans a b c hab hbc := by
    unfold actOrder Date.le at *
    omega

/-- `ORDER BY gen_genero` of `get_generos`. -/
def genOrder (a b : Genero) : Prop := a.gen_genero ≤ b.gen_genero

instance : DecidableRel genOrder := fun _ _ =>
  inferInstanceAs (Decidable (_ ≤ _))

instance : IsTotal Genero genOrder :=
  ⟨fun a b => le_total a.gen_genero b.gen_genero⟩

instance : IsTrans Genero genOrder := ⟨fun _ _ _ h1 h2 => le_trans h1 h2⟩

/-- `ORDER BY nac_nacionalidad` of `get_nacionalidades`. -/
def nacOrder (a b : Nacionalidad) : Prop :=
  a.nac_nacionalidad ≤ b.nac_nacionalidad

instance : DecidableRel nacOrder := fun _ _ =>
  inferInstanceAs (Decidable (_ ≤ _))

instance : IsTotal Nacionalidad nacOrder :=
  ⟨fun a b => le_total a.nac_nacionalidad b.nac_nacionalidad⟩

instance : IsTrans Nacionalidad nacOrder := ⟨fun _ _ _ h1 h2 => le_trans h1 h2⟩

/-- `ORDER BY uv.uv_nombre` of `get_unidades_vecinales`. -/
def uvOrder (a b : UnidadVecinal) : Prop := a.uv_nombre ≤ b.uv_nombre

instance : DecidableRel uvOrder := fun _ _ =>
  inferInstanceAs (Decidable (_ ≤ _))

instance : IsTotal UnidadVecinal uvOrder :=
  ⟨fun a b => le_total a.uv_nombre b.uv_nombre⟩

instance : IsTrans UnidadVecinal uvOrder := ⟨fun _ _ _ h1 h2 => le_trans h1 h2⟩

/-- `ORDER BY mac_nombre` of `get_macro_sectores`. -/
def macOrder (a b : MacroSector) : Prop := a.mac_nombre ≤ b.mac_nombre

instance : DecidableRel macOrder := fun _ _ =>
  inferInstanceAs (Decidable (_ ≤ _))

instance : IsTotal MacroSector macOrder :=
  ⟨fun a b => le_total a.mac_nombre b.mac_nombre⟩

instance : IsTrans MacroSector macOrder := ⟨fun _ _ _ h1 h2 => le_trans h1 h2⟩

/-! ### DatabaseManager (src/database.rs) -/

/-- Failure of a `DatabaseManager` operation.  The not-connected failure
(`anyhow!("No hay conexión a la base de datos")`, raised by every
operation when `client` is `None`) is kept apart from failures reported
by the backing store itself. -/
inductive DbError where
  | notConnected : DbError
  | storeError : String → DbError
deriving DecidableEq, Repr

/-- The text the Rust code attaches to each failure. -/
def DbError.message : DbError → String
  | .notConnected => "No hay conexión a la base de datos"
  | .storeError m => m

/-- `database::DatabaseManager`: holds at most one live connection
(`client: Option<Client>`; the handle itself carries no modelled
state). -/
structure DatabaseManager where
  client : Option Unit
deriving DecidableEq, Repr

instance {ε α : Type} [DecidableEq ε] [DecidableEq α] : DecidableEq (Except ε α) :=
  fun x y =>
    match x, y with
    | .ok a, .ok b =>
      if h : a = b then isTrue (by rw [h]) else isFalse (by simp [h])
    | .error a, .error b =>
      if h : a = b then isTrue (by rw [h]) else isFalse (by simp [h])
    | .ok _, .error _ => isFalse (by simp)
    | .error _, .ok _ => isFalse (by simp)

/-- Outcome of one `DatabaseManager` operation run against a store:
the returned value, the store afterwards, and the SQL statements that
were actually issued to the store. -/
structure DbResult (α : Type) where
  result : Except DbError α
  store : Store
  calls : List String
deriving DecidableEq, Repr

/-- The `else` branch shared by every operation of `DatabaseManager`:
no client held, so the not-connected error is returned and the store is
never touched. -/
def notConnectedResult (s : Store) : DbResult α :=
  { result := .error .notConnected, store := s, calls := [] }

/-- `DatabaseManager::test_connection` (src/database.rs:44-53): a trivial
round-trip probe; `Ok(false)` (not an error) when no client is held. -/
def test_connection (db : DatabaseManager) (s : Store) : DbResult Bool :=
  match db.client with
  | some _ => { result := .ok true, store := s, calls := ["SELECT 1"] }
  | none => { result := .ok false, store := s, calls := [] }

/-- `DatabaseManager::get_dashboard_stats` (src/database.rs:55-81): four
sequential `COUNT(*)` statements; the per-macro breakdown and the two
monthly aggregates are hard-coded placeholders. -/
def get_dashboard_stats (db : DatabaseManager) (s : Store) : DbResult DashboardStats :=
  match db.client with
  | some _ =>
    { result := .ok
        { total_personas := s.per_personasmayores.length,
          total_organizaciones := s.org_orgcomunitarias.length,
          total_actividades := s.act_actividades.length,
          total_viajes := s.via_viajes.length,
          personas_por_macro := [],
          actividades_mes_actual := 0,
          nuevas_personas_mes := 0 },
      store := s,
      calls :=
        ["SELECT COUNT(*) as count FROM per_personasmayores",
         "SELECT COUNT(*) as count FROM org_orgcomunitarias",
         "SELECT COUNT(*) as count FROM " ++ insertActividadTable,
         "SELECT COUNT(*) as count FROM via_viajes"] }
  | none => notConnectedResult s

/-- `DatabaseManager::get_generos` (src/database.rs:83-94). -/
def get_generos (db : DatabaseManager) (s : Store) : DbResult (List Genero) :=
  match db.client with
  | some _ =>
    { result := .ok (List.insertionSort genOrder s.gen_generos),
      store := s,
      calls := ["SELECT gen_id, gen_genero FROM gen_generos ORDER BY gen_genero"] }
  | none => notConnectedResult s

/-- `DatabaseManager::get_nacionalidades` (src/database.rs:96-107). -/
def get_nacionalidades (db : DatabaseManager) (s : Store) : DbResult (List Nacionalidad) :=
  match db.client with
  | some _ =>
    { result := .ok (List.insertionSort nacOrder s.nac_nacionalidades),
      store := s,
      calls := ["SELECT nac_id, nac_nacionalidad FROM nac_nacionalidades ORDER BY nac_nacionalidad"] }
  | none => notConnectedResult s

/-- `DatabaseManager::get_unidades_vecinales` (src/database.rs:109-128):
left join onto `mac_macrosectores`, so an absent macro-sector still
produces a row with `mac_nombre = None`. -/
def get_unidades_vecinales (db : DatabaseManager) (s : Store) : DbResult (List UnidadVecinal) :=
  match db.client with
  | some _ =>
    { result := .ok
        ((List.insertionSort uvOrder s.uv_unidadesvecinales).map fun uv =>
          { uv with mac_nombre :=
              ((s.mac_macrosectores.find? (fun mac => mac.mac_id == uv.uv_macid)).map MacroSector.mac_nombre) }),
      store := s,
      calls := ["SELECT uv.uv_id, uv.uv_nombre, uv.uv_macid, mac.mac_nombre FROM uv_unidadesvecinales uv LEFT JOIN mac_macrosectores mac ON uv.uv_macid = mac.mac_id ORDER BY uv.uv_nombre"] }
  | none => notConnectedResult s

/-- `DatabaseManager::get_macro_sectores` (src/database.rs:130-141). -/
def get_macro_sectores (db : DatabaseManager) (s : Store) : DbResult (List MacroSector) :=
  match db.client with
  | some _ =>
    { result := .ok (List.insertionSort macOrder s.mac_macrosectores),
      store := s,
      calls := ["SELECT mac_id, mac_nombre FROM mac_macrosectores ORDER BY mac_nombre"] }
  | none => notConnectedResult s

/-- The row constructor of `get_personas_mayores`: the three display-only
join columns are not selected and are set to `None`. -/
def PersonaMayor.clearJoins (p : PersonaMayor) : PersonaMayor :=
  { p with gen_genero := none, nac_nacionalidad := none, uv_nombre := none }

/-- `DatabaseManager::get_personas_mayores` (src/database.rs:143-172).
The `_filter` parameter is received but never used: the SQL has no WHERE
clause. -/
def get_personas_mayores (db : DatabaseManager) (s : Store)
    (_filter : PersonaFilter) : DbResult (List PersonaMayor) :=
  match db.client with
  | some _ =>
    { result := .ok
        ((List.insertionSort personaOrder s.per_personasmayores).map
          PersonaMayor.clearJoins),
      store := s,
      calls := ["SELECT per_id, per_rut, per_prinombre, per_segnombre, per_priapellido, per_segapellido, per_genid, per_nacid, per_fechadenac, per_direccion, per_email, per_uvid FROM per_personasmayores ORDER BY per_priapellido, per_prinombre"] }
  | none => notConnectedResult s

/-- The row constructor of `get_organizaciones`: the display-only
`uv_nombre` column is not selected and is set to `None`. -/
def OrganizacionComunitaria.clearJoins (o : OrganizacionComunitaria) :
    OrganizacionComunitaria :=
  { o with uv_nombre := none }

/-- `DatabaseManager::get_organizaciones` (src/database.rs:174-196).
The `_filter` parameter is received but never used. -/
def get_organizaciones (db : DatabaseManager) (s : Store)
    (_filter : OrganizacionFilter) : DbResult (List OrganizacionComunitaria) :=
  match db.client with
  | some _ =>
    { result := .ok
        ((List.insertionSort orgOrder s.org_orgcomunitarias).map
          OrganizacionComunitaria.clearJoins),
      store := s,
      calls := ["SELECT org_id, org_nombre, org_direccion, org_uvid, org_fechaconst, org_perjuridica, org_email FROM org_orgcomunitarias ORDER BY org_nombre"] }
  | none => notConnectedResult s

/-- The row constructor of `get_actividades`: the display-only
`uv_nombre` column is not selected and is set to `None`. -/
def Actividad.clearJoins (a : Actividad) : Actividad := { a with uv_nombre := none }

/-- `DatabaseManager::get_actividades` (src/database.rs:198-219).
The `_filter` parameter is received but never used.  Note the SQL reads
from the table named `actividades`, not `act_actividades`. -/
def get_actividades (db : DatabaseManager) (s : Store)
    (_filter : ActividadFilter) : DbResult (List Actividad) :=
  match db.client with
  | some _ =>
    { result := .ok
        ((List.insertionSort actOrder s.actividades).map Actividad.clearJoins),
      store := s,
      calls := ["SELECT act_id, act_nombre, act_uvid, act_fecha_ini, act_fecha_fin, act_descripcion FROM " ++ getActividadesTable ++ " ORDER BY act_fecha_ini DESC"] }
  | none => notConnectedResult s

/-- `DatabaseManager::insert_persona` (src/database.rs:221-258):
parameterized insert returning the store-assigned `per_id`. -/
def insert_persona (db : DatabaseManager) (s : Store) (persona : PersonaMayor) :
    DbResult Int :=
  match db.client with
  | some _ =>
    { result := .ok s.nextPerId,
      store :=
        { s with
          per_personasmayores :=
            s.per_personasmayores ++ [{ persona with per_id := s.nextPerId }],
          nextPerId := s.nextPerId + 1 },
      calls := ["INSERT INTO per_personasmayores (per_rut, per_prinombre, per_segnombre, per_priapellido, per_segapellido, per_genid, per_nacid, per_fechadenac, per_direccion, per_email, per_uvid) VALUES ($1, $2, $3, $4, $5, $6, $7, $8, $9, $10, $11) RETURNING per_id"] }
  | none => notConnectedResult s

/-- `DatabaseManager::insert_organizacion` (src/database.rs:260-280). -/
def insert_organizacion (db : DatabaseManager) (s : Store)
    (organizacion : OrganizacionComunitaria) : DbResult Int :=
  match db.client with
  | some _ =>
    { result := .ok s.nextOrgId,
      store :=
        { s with
          org_orgcomunitarias :=
            s.org_orgcomunitarias ++ [{ organizacion with org_id := s.nextOrgId }],
          nextOrgId := s.nextOrgId + 1 },
      calls := ["INSERT INTO org_orgcomunitarias (org_nombre, org_direccion, org_uvid, org_fechaconst, org_perjuridica, org_email) VALUES ($1, $2, $3, $4, $5, $6) RETURNING org_id"] }
  | none => notConnectedResult s

/-- `DatabaseManager::insert_actividad` (src/database.rs:282-301).
Note the SQL writes to the table named `act_actividades`, while
`get_actividades` reads from the one named `actividades`. -/
def insert_actividad (db : DatabaseManager) (s : Store) (actividad : Actividad) :
    DbResult Int :=
  match db.client with
  | some _ =>
    { result := .ok s.nextActId,
      store :=
        { s with
          act_actividades :=
            s.act_actividades ++ [{ actividad with act_id := s.nextActId }],
          nextActId := s.nextActId + 1 },
      calls := ["INSERT INTO " ++ insertActividadTable ++ " (act_nombre, act_uvid, act_fecha_ini, act_fecha_fin, act_descripcion) VALUES ($1, $2, $3, $4, $5) RETURNING act_id"] }
  | none => notConnectedResult s

/-- `DatabaseManager::insert_macro_sector` (src/database.rs:304-316). -/
def insert_macro_sector (db : DatabaseManager) (s : Store) (nombre : String) :
    DbResult Int :=
  match db.client with
  | some _ =>
    { result := .ok s.nextMacId,
      store :=
        { s with
          mac_macrosectores := s.mac_macrosectores ++ [⟨s.nextMacId, nombre⟩],
          nextMacId := s.nextMacId + 1 },
      calls := ["INSERT INTO mac_macrosectores (mac_nombre) VALUES ($1) RETURNING mac_id"] }
  | none => notConnectedResult s

/-- `DatabaseManager::insert_unidad_vecinal` (src/database.rs:318-330). -/
def insert_unidad_vecinal (db : DatabaseManager) (s : Store)
    (nombre : String) (macro_sector_id : Int) : DbResult Int :=
  match db.client with
  | some _ =>
    { result := .ok s.nextUvId,
      store :=
        { s with
          uv_unidadesvecinales :=
            s.uv_unidadesvecinales ++ [⟨s.nextUvId, nombre, macro_sector_id, none⟩],
          nextUvId := s.nextUvId + 1 },
      calls := ["INSERT INTO uv_unidadesvecinales (uv_nombre, uv_macid) VALUES ($1, $2) RETURNING uv_id"] }
  | none => notConnectedResult s

/-- `DatabaseManager::insert_taller` (src/database.rs:332-344). -/
def insert_taller (db : DatabaseManager) (s : Store) (nombre : String) :
    DbResult Int :=
  match db.client with
  | some _ =>
    { result := .ok s.nextTalId,
      store :=
        { s with
          tal_talleres := s.tal_talleres ++ [⟨s.nextTalId, nombre⟩],
          nextTalId := s.nextTalId + 1 },
      calls := ["INSERT INTO tal_talleres (tal_nombre) VALUES ($1) RETURNING tal_id"] }
  | none => notConnectedResult s

/-- `DatabaseManager::insert_genero` (src/database.rs:347-359). -/
def insert_genero (db : DatabaseManager) (s : Store) (nombre : String) :
    DbResult Int :=
  match db.client with
  | some _ =>
    { result := .ok s.nextGenId,
      store :=
        { s with
          gen_generos := s.gen_generos ++ [⟨s.nextGenId, nombre⟩],
          nextGenId := s.nextGenId + 1 },
      calls := ["INSERT INTO gen_generos (gen_genero) VALUES ($1) RETURNING gen_id"] }
  | none => notConnectedResult s

/-- `DatabaseManager::insert_nacionalidad` (src/database.rs:362-374). -/
def insert_nacionalidad (db : DatabaseManager) (s : Store) (nombre : String) :
    DbResult Int :=
  match db.client with
  | some _ =>
    { result := .ok s.nextNacId,
      store :=
        { s with
          nac_nacionalidades := s.nac_nacionalidades ++ [⟨s.nextNacId, nombre⟩],
          nextNacId := s.nextNacId + 1 },
      calls := ["INSERT INTO nac_nacionalidades (nac_nacionalidad) VALUES ($1) RETURNING nac_id"] }
  | none => notConnectedResult s

/-! ### Result channel bridge (tokio `mpsc::unbounded_channel`)

Each in-flight operation gets one fresh unbounded channel; the sender
side lives in the spawned background task, the receiver side is polled
non-blockingly once per redraw tick.  The channel is modelled as its
queue of not-yet-received values. -/

structure Bridge (α : Type) where
  queue : List α
deriving DecidableEq, Repr

/-- `mpsc::unbounded_channel()`: a fresh, empty channel. -/
def unbounded_channel (α : Type) : Bridge α := ⟨[]⟩

/-- `UnboundedSender::send`: never blocks, always succeeds. -/
def Bridge.send (b : Bridge α) (v : α) : Bridge α := ⟨b.queue ++ [v]⟩

/-- `UnboundedReceiver::try_recv`: never blocks; pops the oldest pending
value, or reports the channel empty. -/
def Bridge.try_recv (b : Bridge α) : Option α × Bridge α :=
  match b.queue with
  | [] => (none, b)
  | v :: rest => (some v, ⟨rest⟩)

/-! ### Queries view (src/ui/queries.rs) -/

/-- `queries::QueryType`. -/
inductive QueryType where
  | Personas
  | Organizaciones
  | Actividades
  | Viajes
deriving DecidableEq, Repr

/-- `queries::QueryResult`. -/
inductive QueryResult where
  | Personas : List PersonaMayor → QueryResult
  | Organizaciones : List OrganizacionComunitaria → QueryResult
  | Actividades : List Actividad → QueryResult
  | Viajes : List Viaje → QueryResult
deriving DecidableEq, Repr

/-- The single value the background task of `QueriesView::execute_query`
(src/ui/queries.rs:476-517) sends into its bridge, as a function of the
manager/store state at the time the task runs.  No connection check is
made: the `Viajes` arm unconditionally produces an empty success. -/
def executeQueryPayload (db : DatabaseManager) (s : Store) (query_type : QueryType)
    (persona_filter : PersonaFilter) (organizacion_filter : OrganizacionFilter)
    (actividad_filter : ActividadFilter) : Except String QueryResult :=
  match query_type with
  | .Personas =>
    match (get_personas_mayores db s persona_filter).result with
    | .ok personas => .ok (.Personas personas)
    | .error e => .error ("Error al consultar personas: " ++ e.message)
  | .Organizaciones =>
    match (get_organizaciones db s organizacion_filter).result with
    | .ok organizaciones => .ok (.Organizaciones organizaciones)
    | .error e => .error ("Error al consultar organizaciones: " ++ e.message)
  | .Actividades =>
    match (get_actividades db s actividad_filter).result with
    | .ok actividades => .ok (.Actividades actividades)
    | .error e => .error ("Error al consultar actividades: " ++ e.message)
  | .Viajes => .ok (.Viajes [])

/-- The single value the background task of
`QueriesView::execute_auto_query` (src/ui/queries.rs:552-602) sends into
its bridge: unlike the manual search, it first probes the connection
with `test_connection` and sends the not-connected error if the probe
does not come back `Ok(true)` — before ever reaching the per-type
match, including the `Viajes` arm. -/
def executeAutoQueryPayload (db : DatabaseManager) (s : Store)
    (query_type : QueryType) : Except String QueryResult :=
  match (test_connection db s).result with
  | .ok true =>
    match query_type with
    | .Personas =>
      match (get_personas_mayores db s PersonaFilter.default).result with
      | .ok personas => .ok (.Personas personas)
      | .error e => .error ("Error al consultar personas: " ++ e.message)
    | .Organizaciones =>
      match (get_organizaciones db s OrganizacionFilter.default).result with
      | .ok organizaciones => .ok (.Organizaciones organizaciones)
      | .error e => .error ("Error al consultar organizaciones: " ++ e.message)
    | .Actividades =>
      match (get_actividades db s ActividadFilter.default).result with
      | .ok actividades => .ok (.Actividades actividades)
      | .error e => .error ("Error al consultar actividades: " ++ e.message)
    | .Viajes => .ok (.Viajes [])
  | _ => .error ("No hay conexión a la base de datos")

/-- The mutable state of `queries::QueriesView` relevant to result
absorption (catalog fields omitted: they are never touched by
`check_query_result`). -/
structure QueriesView where
  query_type : QueryType
  persona_filter : PersonaFilter
  organizacion_filter : OrganizacionFilter
  actividad_filter : ActividadFilter
  personas_results : List PersonaMayor
  organizaciones_results : List OrganizacionComunitaria
  actividades_results : List Actividad
  viajes_results : List Viaje
  loading : Bool
  query_receiver : Option (Bridge (Except String QueryResult))
deriving DecidableEq, Repr

/-- `QueriesView::check_query_result` (src/ui/queries.rs:85-121): one
non-blocking poll per redraw tick.  A received success replaces the
matching result list; a received error clears all four result lists;
either way the receiver is discarded.  An empty poll changes nothing. -/
def check_query_result (v : QueriesView) : Bool × QueriesView :=
  match v.query_receiver with
  | some receiver =>
    match receiver.try_recv with
    | (some result, _) =>
      let v := { v with loading := false }
      match result with
      | .ok query_result =>
        let v :=
          match query_result with
          | .Personas personas => { v with personas_results := personas }
          | .Organizaciones organizaciones =>
            { v with organizaciones_results := organizaciones }
          | .Actividades actividades => { v with actividades_results := actividades }
          | .Viajes viajes => { v with viajes_results := viajes }
        (true, { v with query_receiver := none })
      | .error _ =>
        (true,
          { v with
            personas_results := [],
            organizaciones_results := [],
            actividades_results := [],
            viajes_results := [],
            query_receiver := none })
    | (none, receiverAfter) => (false, { v with query_receiver := some receiverAfter })
  | none => (false, v)

/-! ### Dashboard view (src/ui/dashboard.rs) -/

/-- The mutable state of `dashboard::DashboardView` relevant to result
absorption (`last_refresh` is wall-clock presentation state and is
omitted). -/
structure DashboardView where
  stats : Option DashboardStats
  loading : Bool
  stats_receiver : Option (Bridge (Except String DashboardStats))
deriving DecidableEq, Repr

/-- `DashboardView::check_stats_result` (src/ui/dashboard.rs:29-49): a
received success replaces the stats; a received error resets them to the
all-zero default; either way the receiver is discarded. -/
def check_stats_result (v : DashboardView) : Bool × DashboardView :=
  match v.stats_receiver with
  | some receiver =>
    match receiver.try_recv with
    | (some (.ok stats), _) =>
      (true, { v with loading := false, stats := some stats, stats_receiver := none })
    | (some (.error _), _) =>
      (true,
        { v with
          loading := false,
          stats := some DashboardStats.default,
          stats_receiver := none })
    | (none, receiverAfter) => (false, { v with stats_receiver := some receiverAfter })
  | none => (false, v)

/-! ### Insertions view (src/ui/insertions.rs) -/

/-- `insertions::InsertionType`. -/
inductive InsertionType where
  | Persona
  | Organizacion
  | Actividad
  | MacroSector
  | UnidadVecinal
  | Taller
deriving DecidableEq, Repr

/-- `insertions::CatalogUpdate`. -/
inductive CatalogUpdate where
  | Generos : List Genero → CatalogUpdate
  | Nacionalidades : List Nacionalidad → CatalogUpdate
  | UnidadesVecinales : List UnidadVecinal → CatalogUpdate
  | MacroSectores : List MacroSector → CatalogUpdate
deriving DecidableEq, Repr

/-- `insertions::PersonaForm`. -/
structure PersonaForm where
  rut : String
  primer_nombre : String
  segundo_nombre : String
  primer_apellido : String
  segundo_apellido : String
  genero_id : Option Int
  nacionalidad_id : Option Int
  fecha_nacimiento : String
  direccion : String
  email : String
  unidad_vecinal_id : Option Int
deriving DecidableEq, Repr

/-- `PersonaForm::default()` (derived `Default`). -/
def PersonaForm.default : PersonaForm :=
  ⟨"", "", "", "", "", none, none, "", "", "", none⟩

/-- `insertions::OrganizacionForm`. -/
structure OrganizacionForm where
  nombre : String
  direccion : String
  fecha_constitucion : String
  personalidad_juridica : String
  email : String
  unidad_vecinal_id : Option Int
deriving DecidableEq, Repr

/-- `OrganizacionForm::default()` (derived `Default`). -/
def OrganizacionForm.default : OrganizacionForm := ⟨"", "", "", "", "", none⟩

/-- `insertions::ActividadForm`. -/
structure ActividadForm where
  nombre : String
  fecha_inicio : String
  fecha_fin : String
  descripcion : String
  unidad_vecinal_id : Option Int
deriving DecidableEq, Repr

/-- `ActividadForm::default()` (derived `Default`). -/
def ActividadForm.default : ActividadForm := ⟨"", "", "", "", none⟩

/-- `insertions::MacroSectorForm`. -/
structure MacroSectorForm where
  nombre : String
deriving DecidableEq, Repr

/-- `MacroSectorForm::default()` (derived `Default`). -/
def MacroSectorForm.default : MacroSectorForm := ⟨""⟩

/-- `insertions::UnidadVecinalForm`. -/
structure UnidadVecinalForm where
  nombre : String
  macro_sector_id : Option Int
deriving DecidableEq, Repr

/-- `UnidadVecinalForm::default()` (derived `Default`). -/
def UnidadVecinalForm.default : UnidadVecinalForm := ⟨"", none⟩

/-- `insertions::TallerForm`. -/
structure TallerForm where
  nombre : String
deriving DecidableEq, Repr

/-- `TallerForm::default()` (derived `Default`). -/
def TallerForm.default : TallerForm := ⟨""⟩

/-- The mutable state of `insertions::InsertionsView` relevant to form
validation, submission and result absorption (catalog lists omitted:
they are never touched by those paths). -/
structure InsertionsView where
  insertion_type : InsertionType
  persona_form : PersonaForm
  organizacion_form : OrganizacionForm
  actividad_form : ActividadForm
  macro_sector_form : MacroSectorForm
  unidad_vecinal_form : UnidadVecinalForm
  taller_form : TallerForm
  loading : Bool
  insertion_receiver : Option (Bridge (Except String String))
  catalog_receiver : Option (Bridge CatalogUpdate)
deriving DecidableEq, Repr

/-- `InsertionsView::load_catalogs` (src/ui/insertions.rs:647-693):
replaces the catalog channel with a fresh one and spawns the four
catalog fetches (the spawned fetches touch only the new channel, not the
view state modelled here). -/
def load_catalogs (v : InsertionsView) : InsertionsView :=
  { v with catalog_receiver := some (unbounded_channel CatalogUpdate) }

/-- `InsertionsView::check_insertion_result` (src/ui/insertions.rs:161-190):
a received success resets the form selected by `insertion_type` to its
default and refreshes the catalogs; a received error is only surfaced —
every form field is left untouched so the user can correct and resubmit. -/
def check_insertion_result (v : InsertionsView) :
    Option (Bool × String) × InsertionsView :=
  match v.insertion_receiver with
  | some receiver =>
    match receiver.try_recv with
    | (some result, _) =>
      let v := { v with loading := false, insertion_receiver := none }
      match result with
      | .ok success_msg =>
        let v :=
          match v.insertion_type with
          | .Persona => { v with persona_form := PersonaForm.default }
          | .Organizacion => { v with organizacion_form := OrganizacionForm.default }
          | .Actividad => { v with actividad_form := ActividadForm.default }
          | .MacroSector => { v with macro_sector_form := MacroSectorForm.default }
          | .UnidadVecinal =>
            { v with unidad_vecinal_form := UnidadVecinalForm.default }
          | .Taller => { v with taller_form := TallerForm.default }
        (some (true, success_msg), load_catalogs v)
      | .error error_msg => (some (false, error_msg), v)
    | (none, receiverAfter) =>
      (none, { v with insertion_receiver := some receiverAfter })
  | none => (none, v)

/-- `InsertionsView::validate_organizacion_form`
(src/ui/insertions.rs:939-945): every required field non-empty and a
neighborhood unit selected. -/
def validate_organizacion_form (v : InsertionsView) : Bool :=
  !v.organizacion_form.nombre.isEmpty &&
  !v.organizacion_form.direccion.isEmpty &&
  !v.organizacion_form.fecha_constitucion.isEmpty &&
  !v.organizacion_form.personalidad_juridica.isEmpty &&
  v.organizacion_form.unidad_vecinal_id.isSome

/-- `InsertionsView::validate_persona_form` (src/ui/insertions.rs:916-937),
including its inline email check (empty email is treated as valid and
becomes NULL; otherwise the email must contain `@` and `.` and have byte
length greater than 5). -/
def validate_persona_form (v : InsertionsView) : Bool :=
  let email_valid :=
    if v.persona_form.email.trim.isEmpty then
      true
    else
      let email := v.persona_form.email.trim
      email.contains '@' && email.contains '.' && Nat.blt 5 email.utf8ByteSize
  validate_rut (v.persona_form.rut.trim) &&
  !v.persona_form.primer_nombre.isEmpty &&
  !v.persona_form.primer_apellido.isEmpty &&
  v.persona_form.genero_id.isSome &&
  v.persona_form.nacionalidad_id.isSome &&
  !v.persona_form.fecha_nacimiento.isEmpty &&
  !v.persona_form.direccion.isEmpty &&
  v.persona_form.unidad_vecinal_id.isSome &&
  email_valid

/-- Leap-year rule of the proleptic Gregorian calendar used by
`chrono`. -/
def isLeapYear (y : Int) : Bool :=
  y % 4 == 0 && (y % 100 != 0 || y % 400 == 0)

/-- Days in a month of the proleptic Gregorian calendar. -/
def daysInMonth (y : Int) (m : Nat) : Nat :=
  if m == 2 then (if isLeapYear y then 29 else 28)
  else if m == 4 || m == 6 || m == 9 || m == 11 then 30
  else 31

/-- Digits-only string to number. -/
def parseDigits (cs : List Char) : Option Nat :=
  if !cs.isEmpty && cs.all Char.isDigit then
    some (cs.foldl (fun acc c => acc * 10 + (c.toNat - 48)) 0)
  else
    none

/-- Embedding of `chrono::NaiveDate::parse_from_str(s, "%Y-%m-%d")` for
the common case of a non-negative year: three dash-separated decimal
components forming a valid calendar date. -/
def parse_ymd (s : String) : Option Date :=
  match (s.splitOn ("-")).map (fun part => parseDigits part.data) with
  | [some y, some m, some d] =>
    if 1 ≤ m && m ≤ 12 && 1 ≤ d && d ≤ daysInMonth (Int.ofNat y) m then
      some ⟨Int.ofNat y, m, d⟩
    else
      none
  | _ => none

/-- `InsertionsView::save_organizacion` (src/ui/insertions.rs:757-795):
if the form validates, a fresh bridge replaces `insertion_receiver` and
a background insert of the record built from the form is spawned
(returned here as the second component); otherwise nothing at all
happens. -/
def save_organizacion (v : InsertionsView) :
    InsertionsView × Option OrganizacionComunitaria :=
  if validate_organizacion_form v then
    let organizacion : OrganizacionComunitaria :=
      { org_id := 0,
        org_nombre := v.organizacion_form.nombre,
        org_direccion := v.organizacion_form.direccion,
        org_uvid := v.organizacion_form.unidad_vecinal_id.getD 1,
        org_fechaconst := (parse_ymd v.organizacion_form.fecha_constitucion).getD ⟨2024, 1, 1⟩,
        org_perjuridica := v.organizacion_form.personalidad_juridica,
        org_email :=
          if v.organizacion_form.email.trim.isEmpty then none
          else some v.organizacion_form.email.trim,
        uv_nombre := none }
    ({ v with insertion_receiver := some (unbounded_channel (Except String String)) },
      some organizacion)
  else
    (v, none)

/-- The effect on the store of the background task that
`save_organizacion` spawns (src/ui/insertions.rs:780-793), given the
manager/store state when the task runs: the task calls
`insert_organizacion` exactly when a record was handed to it.  Returns
the store afterwards and the SQL statements issued. -/
def runSpawnedOrganizacionInsert (db : DatabaseManager) (s : Store) :
    Option OrganizacionComunitaria → Store × List String
  | none => (s, [])
  | some organizacion =>
    ((insert_organizacion db s organizacion).store,
      (insert_organizacion db s organizacion).calls)

/-! ### Concrete fixtures used to instantiate the theorems -/

/-- A manager holding a live connection. -/
def dbConnected : DatabaseManager := ⟨some ()⟩

/-- A manager holding no connection. -/
def dbDisconnected : DatabaseManager := ⟨none⟩

/-- A store with every table empty. -/
def emptyStore : Store :=
  ⟨[], [], [], [], [], [], [], [], [], [], 1, 1, 1, 1, 1, 1, 1, 1⟩

/-- Sample person row. -/
def personaA : PersonaMayor :=
  ⟨1, "12345678-9", "Ana", none, "Soto", none, 1, 1, ⟨1950, 1, 1⟩,
    "Calle 1", none, 1, none, none, none⟩

/-- Sample person row sorting before `personaA`. -/
def personaB : PersonaMayor :=
  ⟨2, "11111111-1", "Luis", none, "Rojas", none, 1, 1, ⟨1948, 6, 2⟩,
    "Calle 2", none, 1, none, none, none⟩

/-- Sample organization row. -/
def orgA : OrganizacionComunitaria :=
  ⟨1, "Junta Vecinal", "Av. Central 10", 1, ⟨2001, 5, 20⟩, "PJ-100", none, none⟩

/-- Sample activity row. -/
def actA : Actividad :=
  ⟨1, "Taller de baile", 1, ⟨2024, 4, 1⟩, none, none, none⟩

/-- Sample activity row with a later start date. -/
def actB : Actividad :=
  ⟨2, "Paseo", 1, ⟨2024, 5, 2⟩, some ⟨2024, 5, 3⟩, none, none⟩

/-- A small populated store: two persons, one organization, one row in
`act_actividades`, two rows in `actividades`. -/
def storeSample : Store :=
  { emptyStore with
    per_personasmayores := [personaA, personaB],
    org_orgcomunitarias := [orgA],
    act_actividades := [actA],
    actividades := [actA, actB],
    nextPerId := 3,
    nextOrgId := 2,
    nextActId := 3 }

/-- A store with exactly one row in each of the person, organization and
activity tables (both activity tables), so that list results evaluate
definitionally without comparing sort keys. -/
def storeOne : Store :=
  { emptyStore with
    per_personasmayores := [personaA],
    org_orgcomunitarias := [orgA],
    act_actividades := [actA],
    actividades := [actA],
    nextPerId := 2,
    nextOrgId := 2,
    nextActId := 2 }

/-- A non-default person filter. -/
def filterSample : PersonaFilter :=
  ⟨"Ana", "Soto", "12345678-9", some 1, none, some 1, none, some 60, none⟩

/-- Queries view at rest (no pending bridge). -/
def qvSample : QueriesView :=
  ⟨.Personas, PersonaFilter.default, OrganizacionFilter.default,
    ActividadFilter.default, [personaA], [orgA], [actA], [], false, none⟩

/-- Dashboard view at rest (no pending bridge). -/
def dvSample : DashboardView := ⟨some ⟨2, 1, 1, 0, [], 0, 0⟩, false, none⟩

/-- Insertions view at rest, with a partially filled person form. -/
def ivSample : InsertionsView :=
  ⟨.Organizacion,
    { PersonaForm.default with rut := "12345678-9", primer_nombre := "Ana" },
    { OrganizacionForm.default with nombre := "Junta Vecinal" },
    ActividadForm.default, MacroSectorForm.default, UnidadVecinalForm.default,
    TallerForm.default, false, none, none⟩

/-- Insertions view whose organization form has a blank required name. -/
def ivBlankOrgName : InsertionsView :=
  { ivSample with
    organizacion_form :=
      { nombre := "",
        direccion := "Av. Central 10",
        fecha_constitucion := "2001-05-20",
        personalidad_juridica := "PJ-100",
        email := "",
        unidad_vecinal_id := some 1 } }

/-! ### Claims -/

/-- C2: with no connection held (`client` is `None`), every data-access
operation of `DatabaseManager` — the dashboard stats, every list and
lookup, and every insert — returns the distinct not-connected error,
issues no SQL statement, and leaves the store unchanged; that failure is
a different value from every store-reported failure. -/
theorem C2_not_connected_uniform (db : DatabaseManager)
    (hdb : db.client = none) (s : Store) :
    get_dashboard_stats db s = notConnectedResult s ∧
    (∀ f, get_personas_mayores db s f = notConnectedResult s) ∧
    (∀ f, get_organizaciones db s f = notConnectedResult s) ∧
    (∀ f, get_actividades db s f = notConnectedResult s) ∧
    get_generos db s = notConnectedResult s ∧
    get_nacionalidades db s = notConnectedResult s ∧
    get_unidades_vecinales db s = notConnectedResult s ∧
    get_macro_sectores db s = notConnectedResult s ∧
    (∀ p, insert_persona db s p = notConnectedResult s) ∧
    (∀ o, insert_organizacion db s o = notConnectedResult s) ∧
    (∀ a, insert_actividad db s a = notConnectedResult s) ∧
    (∀ n, insert_macro_sector db s n = notConnectedResult s) ∧
    (∀ n m, insert_unidad_vecinal db s n m = notConnectedResult s) ∧
    (∀ n, insert_taller db s n = notConnectedResult s) ∧
    (∀ n, insert_genero db s n = notConnectedResult s) ∧
    (∀ n, insert_nacionalidad db s n = notConnectedResult s) ∧
    (notConnectedResult s : DbResult Int).result = .error .notConnected ∧
    (notConnectedResult s : DbResult Int).store = s ∧
    (notConnectedResult s : DbResult Int).calls = [] ∧
    (∀ m, DbError.notConnected ≠ DbError.storeError m) := by
  obtain ⟨client⟩ := db
  subst hdb
  refine ⟨rfl, fun _ => rfl, fun _ => rfl, fun _ => rfl, rfl, rfl, rfl, rfl,
    fun _ => rfl, fun _ => rfl, fun _ => rfl, fun _ => rfl, fun _ _ => rfl,
    fun _ => rfl, fun _ => rfl, fun _ => rfl, rfl, rfl, rfl, fun m h => ?_⟩
  exact DbError.noConfusion h

/-- C2 witness: the theorem instantiated with a disconnected manager and
the sample store. -/
theorem C2_not_connected_uniform_witness :
    get_dashboard_stats dbDisconnected storeSample = notConnectedResult storeSample ∧
    insert_persona dbDisconnected storeSample personaA = notConnectedResult storeSample :=
  ⟨(C2_not_connected_uniform dbDisconnected rfl storeSample).1,
    (C2_not_connected_uniform dbDisconnected rfl storeSample).2.2.2.2.2.2.2.2.1 personaA⟩

/-- C4 counterexample: the automatic Trip query triggered with no
connection held sends the not-connected error, not an empty success —
refuting "regardless of the connection state". -/
theorem C4_counterexample :
    executeAutoQueryPayload dbDisconnected emptyStore QueryType.Viajes =
      .error ("No hay conexión a la base de datos") ∧
    executeAutoQueryPayload dbDisconnected emptyStore QueryType.Viajes ≠
      .ok (QueryResult.Viajes []) := by
  refine ⟨rfl, ?_⟩
  intro h
  exact Except.noConfusion h

/-- C4 (amended): the manual search button's Trip query always produces
the empty-sequence success, regardless of the connection state and the
store contents; the automatic Trip query on query-type change produces
the empty-sequence success when a connection is held, and the
not-connected error when none is. -/
theorem C4_trip_queries_amended (db : DatabaseManager) (s : Store)
    (persona_filter : PersonaFilter) (organizacion_filter : OrganizacionFilter)
    (actividad_filter : ActividadFilter) :
    executeQueryPayload db s .Viajes persona_filter organizacion_filter
        actividad_filter = .ok (.Viajes []) ∧
    (db.client.isSome = true →
      executeAutoQueryPayload db s .Viajes = .ok (.Viajes [])) ∧
    (db.client = none →
      executeAutoQueryPayload db s .Viajes =
        .error ("No hay conexión a la base de datos")) := by
  obtain ⟨client⟩ := db
  refine ⟨rfl, fun hconn => ?_, fun hnone => ?_⟩
  · cases client with
    | some u => rfl
    | none => simp at hconn
  · simp only at hnone
    subst hnone
    rfl

/-- C4 witness: the amended theorem instantiated with both a connected
and a disconnected manager over the empty store. -/
theorem C4_trip_queries_amended_witness :
    executeQueryPayload dbDisconnected emptyStore .Viajes PersonaFilter.default
        OrganizacionFilter.default ActividadFilter.default = .ok (.Viajes []) ∧
    executeAutoQueryPayload dbConnected emptyStore .Viajes = .ok (.Viajes []) ∧
    executeAutoQueryPayload dbDisconnected emptyStore .Viajes =
      .error ("No hay conexión a la base de datos") :=
  ⟨(C4_trip_queries_amended dbDisconnected emptyStore PersonaFilter.default
      OrganizacionFilter.default ActividadFilter.default).1,
    (C4_trip_queries_amended dbConnected emptyStore PersonaFilter.default
      OrganizacionFilter.default ActividadFilter.default).2.1 rfl,
    (C4_trip_queries_amended dbDisconnected emptyStore PersonaFilter.default
      OrganizacionFilter.default ActividadFilter.default).2.2 rfl⟩

/-- C7: the email validator (`utils::validate_email`, the regex check the
spec designates) accepts "a@b.co" and rejects "a@b", "noatsign.com" and
the empty string. -/
theorem C7_email_examples :
    validate_email ("a@b.co") = true ∧
    validate_email ("a@b") = false ∧
    validate_email ("noatsign.com") = false ∧
    validate_email ("") = false := by
  refine ⟨?_, ?_, ?_, ?_⟩ <;> decide

/-- C8: with the current date passed as `today`, birth date 2000-03-15
gives age 23 against 2024-03-14 and age 24 against 2024-03-15 or any
later (month, day) in 2024; in general the age is the year difference,
decremented by one exactly when today's (month, day) lexicographically
precedes the birth (month, day). -/
theorem C8_age_boundary :
    calculate_age ⟨2024, 3, 14⟩ ⟨2000, 3, 15⟩ = 23 ∧
    calculate_age ⟨2024, 3, 15⟩ ⟨2000, 3, 15⟩ = 24 ∧
    (∀ m d : Nat, (3 < m ∨ (m = 3 ∧ 15 ≤ d)) →
      calculate_age ⟨2024, m, d⟩ ⟨2000, 3, 15⟩ = 24) ∧
    (∀ today birth : Date,
      calculate_age today birth =
        today.year - birth.year -
          (if today.month < birth.month ∨
              (today.month = birth.month ∧ today.day < birth.day) then 1 else 0)) := by
  refine ⟨by decide, by decide, ?_, ?_⟩
  · intro m d h
    simp only [calculate_age]
    split
    · exfalso
      omega
    · decide
  · intro t b
    by_cases hc : (t.month < b.month ∨ (t.month = b.month ∧ t.day < b.day))
    · simp [calculate_age, hc]
    · simp [calculate_age, hc]

/-- C8 witness: the later-in-2024 clause applied at December 31st. -/
theorem C8_age_boundary_witness :
    calculate_age ⟨2024, 12, 31⟩ ⟨2000, 3, 15⟩ = 24 :=
  C8_age_boundary.2.2.1 12 31 (Or.inl (by omega))

/-- C9: submitting the organization form with a blank required name is
rejected by the client-side validation before any store interaction: the
view state is unchanged, no background insert is spawned, and whatever
the manager/store state, no SQL statement is issued and the organization
table keeps its contents. -/
theorem C9_blank_org_name_rejected (v : InsertionsView)
    (hname : v.organizacion_form.nombre = "") :
    validate_organizacion_form v = false ∧
    save_organizacion v = (v, none) ∧
    ∀ (db : DatabaseManager) (s : Store),
      runSpawnedOrganizacionInsert db s (save_organizacion v).2 = (s, []) := by
  have hval : validate_organizacion_form v = false := by
    have hempty : "".isEmpty = true := rfl
    simp [validate_organizacion_form, hname, hempty]
  have hsave : save_organizacion v = (v, none) := by
    simp [save_organizacion, hval]
  exact ⟨hval, hsave, fun db s => by simp [hsave, runSpawnedOrganizacionInsert]⟩

/-- C9 witness: the theorem at the concrete view with a blank
organization name, run against the sample store. -/
theorem C9_blank_org_name_rejected_witness :
    validate_organizacion_form ivBlankOrgName = false ∧
    runSpawnedOrganizacionInsert dbConnected storeSample
      (save_organizacion ivBlankOrgName).2 = (storeSample, []) :=
  ⟨(C9_blank_org_name_rejected ivBlankOrgName rfl).1,
    (C9_blank_org_name_rejected ivBlankOrgName rfl).2.2 dbConnected storeSample⟩

/-- C3: on a fresh bridge every non-blocking poll returns empty and
changes nothing; after exactly one send, the first poll returns that
value and the polling controller discards its receiver, so every
subsequent poll on the same (consumed) bridge returns empty with the
state unchanged. -/
theorem C3_bridge_single_delivery :
    (∀ (α : Type), (unbounded_channel α).try_recv = (none, unbounded_channel α)) ∧
    (∀ (α : Type) (v : α),
      ((unbounded_channel α).send v).try_recv = (some v, unbounded_channel α)) ∧
    (∀ v : QueriesView,
      v.query_receiver = some (unbounded_channel (Except String QueryResult)) →
      check_query_result v = (false, v)) ∧
    (∀ (v : QueriesView) (payload : Except String QueryResult),
      v.query_receiver =
        some ((unbounded_channel (Except String QueryResult)).send payload) →
      (check_query_result v).1 = true ∧
      (check_query_result v).2.query_receiver = none) ∧
    (∀ v : QueriesView, v.query_receiver = none →
      check_query_result v = (false, v)) := by
  refine ⟨fun α => rfl, fun α v => rfl, ?_, ?_, ?_⟩
  · intro v h
    cases v with
    | mk qt pf ogf af pr ors ar vr ld rec =>
      have h2 : rec = some (unbounded_channel (Except String QueryResult)) := h
      subst h2
      rfl
  · intro v payload h
    cases v with
    | mk qt pf ogf af pr ors ar vr ld rec =>
      have h2 : rec =
          some ((unbounded_channel (Except String QueryResult)).send payload) := h
      subst h2
      rcases payload with msg | qr
      · exact ⟨rfl, rfl⟩
      · rcases qr with ps | os | acts | vs <;> exact ⟨rfl, rfl⟩
  · intro v h
    cases v with
    | mk qt pf ogf af pr ors ar vr ld rec =>
      have h2 : rec = none := h
      subst h2
      rfl

/-- C3 witness: the controller clauses applied to the sample queries
view, once with an empty pending bridge and once with a bridge holding a
single sent result. -/
theorem C3_bridge_single_delivery_witness :
    check_query_result
        { qvSample with
          query_receiver := some (unbounded_channel (Except String QueryResult)) } =
      (false,
        { qvSample with
          query_receiver := some (unbounded_channel (Except String QueryResult)) }) ∧
    (check_query_result
        { qvSample with
          query_receiver :=
            some ((unbounded_channel (Except String QueryResult)).send
              (.ok (.Personas [personaB]))) }).1 = true ∧
    (check_query_result
        { qvSample with
          query_receiver :=
            some ((unbounded_channel (Except String QueryResult)).send
              (.ok (.Personas [personaB]))) }).2.query_receiver = none ∧
    check_query_result qvSample = (false, qvSample) :=
  ⟨C3_bridge_single_delivery.2.2.1 _ rfl,
    (C3_bridge_single_delivery.2.2.2.1 _ (.ok (.Personas [personaB])) rfl).1,
    (C3_bridge_single_delivery.2.2.2.1 _ (.ok (.Personas [personaB])) rfl).2,
    C3_bridge_single_delivery.2.2.2.2 qvSample rfl⟩

/-- C10: when a pending result is absorbed — in the queries view an
error clears all four local result lists while a success replaces
exactly the corresponding list; in the dashboard an error resets the
stats to the all-zero default while a success installs the received
stats; in the insertions view an error leaves every form unchanged
while a success resets the active form to its default. -/
theorem C10_result_absorption :
    (∀ (v : QueriesView) (msg : String),
      v.query_receiver = some ⟨[.error msg]⟩ →
      (check_query_result v).2.personas_results = [] ∧
      (check_query_result v).2.organizaciones_results = [] ∧
      (check_query_result v).2.actividades_results = [] ∧
      (check_query_result v).2.viajes_results = []) ∧
    (∀ (v : QueriesView) (ps : List PersonaMayor),
      v.query_receiver = some ⟨[.ok (.Personas ps)]⟩ →
      (check_query_result v).2.personas_results = ps ∧
      (check_query_result v).2.organizaciones_results = v.organizaciones_results ∧
      (check_query_result v).2.actividades_results = v.actividades_results ∧
      (check_query_result v).2.viajes_results = v.viajes_results) ∧
    (∀ (v : QueriesView) (os : List OrganizacionComunitaria),
      v.query_receiver = some ⟨[.ok (.Organizaciones os)]⟩ →
      (check_query_result v).2.organizaciones_results = os ∧
      (check_query_result v).2.personas_results = v.personas_results ∧
      (check_query_result v).2.actividades_results = v.actividades_results ∧
      (check_query_result v).2.viajes_results = v.viajes_results) ∧
    (∀ (v : QueriesView) (acts : List Actividad),
      v.query_receiver = some ⟨[.ok (.Actividades acts)]⟩ →
      (check_query_result v).2.actividades_results = acts ∧
      (check_query_result v).2.personas_results = v.personas_results ∧
      (check_query_result v).2.organizaciones_results = v.organizaciones_results ∧
      (check_query_result v).2.viajes_results = v.viajes_results) ∧
    (∀ (v : QueriesView) (vs : List Viaje),
      v.query_receiver = some ⟨[.ok (.Viajes vs)]⟩ →
      (check_query_result v).2.viajes_results = vs ∧
      (check_query_result v).2.personas_results = v.personas_results ∧
      (check_query_result v).2.organizaciones_results = v.organizaciones_results ∧
      (check_query_result v).2.actividades_results = v.actividades_results) ∧
    (∀ (v : DashboardView) (msg : String),
      v.stats_receiver = some ⟨[.error msg]⟩ →
      (check_stats_result v).2.stats = some DashboardStats.default) ∧
    (∀ (v : DashboardView) (st : DashboardStats),
      v.stats_receiver = some ⟨[.ok st]⟩ →
      (check_stats_result v).2.stats = some st) ∧
    (∀ (v : InsertionsView) (msg : String),
      v.insertion_receiver = some ⟨[.error msg]⟩ →
      (check_insertion_result v).1 = some (false, msg) ∧
      (check_insertion_result v).2.persona_form = v.persona_form ∧
      (check_insertion_result v).2.organizacion_form = v.organizacion_form ∧
      (check_insertion_result v).2.actividad_form = v.actividad_form ∧
      (check_insertion_result v).2.macro_sector_form = v.macro_sector_form ∧
      (check_insertion_result v).2.unidad_vecinal_form = v.unidad_vecinal_form ∧
      (check_insertion_result v).2.taller_form = v.taller_form) ∧
    (∀ (v : InsertionsView) (msg : String),
      v.insertion_receiver = some ⟨[.ok msg]⟩ →
      (check_insertion_result v).1 = some (true, msg) ∧
      (v.insertion_type = .Persona →
        (check_insertion_result v).2.persona_form = PersonaForm.default) ∧
      (v.insertion_type = .Organizacion →
        (check_insertion_result v).2.organizacion_form = OrganizacionForm.default) ∧
      (v.insertion_type = .Actividad →
        (check_insertion_result v).2.actividad_form = ActividadForm.default) ∧
      (v.insertion_type = .MacroSector →
        (check_insertion_result v).2.macro_sector_form = MacroSectorForm.default) ∧
      (v.insertion_type = .UnidadVecinal →
        (check_insertion_result v).2.unidad_vecinal_form = UnidadVecinalForm.default) ∧
      (v.insertion_type = .Taller →
        (check_insertion_result v).2.taller_form = TallerForm.default)) := by
  refine ⟨?_, ?_, ?_, ?_, ?_, ?_, ?_, ?_, ?_⟩
  · intro v msg h
    cases v with
    | mk qt pf ogf af pr ors ar vr ld rec =>
      have h2 : rec = some ⟨[.error msg]⟩ := h
      subst h2
      exact ⟨rfl, rfl, rfl, rfl⟩
  · intro v ps h
    cases v with
    | mk qt pf ogf af pr ors ar vr ld rec =>
      have h2 : rec = some ⟨[.ok (.Personas ps)]⟩ := h
      subst h2
      exact ⟨rfl, rfl, rfl, rfl⟩
  · intro v os h
    cases v with
    | mk qt pf ogf af pr ors ar vr ld rec =>
      have h2 : rec = some ⟨[.ok (.Organizaciones os)]⟩ := h
      subst h2
      exact ⟨rfl, rfl, rfl, rfl⟩
  · intro v acts h
    cases v with
    | mk qt pf ogf af pr ors ar vr ld rec =>
      have h2 : rec = some ⟨[.ok (.Actividades acts)]⟩ := h
      subst h2
      exact ⟨rfl, rfl, rfl, rfl⟩
  · intro v vs h
    cases v with
    | mk qt pf ogf af pr ors ar vr ld rec =>
      have h2 : rec = some ⟨[.ok (.Viajes vs)]⟩ := h
      subst h2
      exact ⟨rfl, rfl, rfl, rfl⟩
  · intro v msg h
    cases v with
    | mk st ld rec =>
      have h2 : rec = some ⟨[.error msg]⟩ := h
      subst h2
      rfl
  · intro v st h
    cases v with
    | mk st0 ld rec =>
      have h2 : rec = some ⟨[.ok st]⟩ := h
      subst h2
      rfl
  · intro v msg h
    cases v with
    | mk ity perf orgf actf macf uvf talf ld rec catrec =>
      have h2 : rec = some ⟨[.error msg]⟩ := h
      subst h2
      exact ⟨rfl, rfl, rfl, rfl, rfl, rfl, rfl⟩
  · intro v msg h
    cases v with
    | mk ity perf orgf actf macf uvf talf ld rec catrec =>
      have h2 : rec = some ⟨[.ok msg]⟩ := h
      subst h2
      cases ity <;> simp [check_insertion_result, Bridge.try_recv, load_catalogs]

/-- C10 witness: the absorption clauses applied to the sample views with
concrete pending payloads. -/
theorem C10_result_absorption_witness :
    (check_query_result
        { qvSample with query_receiver := some ⟨[.error ("boom")]⟩ }).2.personas_results = [] ∧
    (check_query_result
        { qvSample with
          query_receiver := some ⟨[.ok (.Personas [personaB])]⟩ }).2.personas_results = [personaB] ∧
    (check_stats_result
        { dvSample with stats_receiver := some ⟨[.error ("boom")]⟩ }).2.stats =
      some DashboardStats.default ∧
    (check_insertion_result
        { ivSample with insertion_receiver := some ⟨[.error ("boom")]⟩ }).2.organizacion_form =
      ivSample.organizacion_form ∧
    (check_insertion_result
        { ivSample with insertion_receiver := some ⟨[.ok ("ok")]⟩ }).2.organizacion_form =
      OrganizacionForm.default :=
  ⟨(C10_result_absorption.1 _ ("boom") rfl).1,
    (C10_result_absorption.2.1 _ [personaB] rfl).1,
    C10_result_absorption.2.2.2.2.2.1 _ ("boom") rfl,
    (C10_result_absorption.2.2.2.2.2.2.2.1 _ ("boom") rfl).2.2.1,
    (C10_result_absorption.2.2.2.2.2.2.2.2 _ ("ok") rfl).2.2.1 rfl⟩

/-- C1: with a connection held, the three entity list operations ignore
their filter entirely — any two filters give identical results — and the
successful result is the full table contents (a permutation of every
stored row, join columns cleared) in the fixed sort order: family name
then given name for persons, name for organizations, start date
descending for activities. -/
theorem C1_filters_ignored (db : DatabaseManager) (s : Store)
    (hdb : db.client.isSome = true) :
    ((∀ f₁ f₂ : PersonaFilter,
        get_personas_mayores db s f₁ = get_personas_mayores db s f₂) ∧
      ∀ (f : PersonaFilter) (out : List PersonaMayor),
        (get_personas_mayores db s f).result = .ok out →
          out.Perm (s.per_personasmayores.map PersonaMayor.clearJoins) ∧
          out.Sorted personaOrder) ∧
    ((∀ f₁ f₂ : OrganizacionFilter,
        get_organizaciones db s f₁ = get_organizaciones db s f₂) ∧
      ∀ (f : OrganizacionFilter) (out : List OrganizacionComunitaria),
        (get_organizaciones db s f).result = .ok out →
          out.Perm (s.org_orgcomunitarias.map OrganizacionComunitaria.clearJoins) ∧
          out.Sorted orgOrder) ∧
    ((∀ f₁ f₂ : ActividadFilter,
        get_actividades db s f₁ = get_actividades db s f₂) ∧
      ∀ (f : ActividadFilter) (out : List Actividad),
        (get_actividades db s f).result = .ok out →
          out.Perm (s.actividades.map Actividad.clearJoins) ∧
          out.Sorted actOrder) := by
  obtain ⟨client⟩ := db
  cases client with
  | none => simp at hdb
  | some u =>
    refine ⟨⟨fun _ _ => rfl, ?_⟩, ⟨fun _ _ => rfl, ?_⟩, ⟨fun _ _ => rfl, ?_⟩⟩
    · intro f out hout
      have hout2 : Except.ok ((List.insertionSort personaOrder
          s.per_personasmayores).map PersonaMayor.clearJoins) = Except.ok out := hout
      have he : (List.insertionSort personaOrder
          s.per_personasmayores).map PersonaMayor.clearJoins = out := by
        injection hout2
      subst he
      refine ⟨(List.perm_insertionSort personaOrder _).map PersonaMayor.clearJoins, ?_⟩
      rw [List.Sorted, List.pairwise_map]
      exact (List.sorted_insertionSort personaOrder _).imp (fun h => h)
    · intro f out hout
      have hout2 : Except.ok ((List.insertionSort orgOrder
          s.org_orgcomunitarias).map OrganizacionComunitaria.clearJoins) =
            Except.ok out := hout
      have he : (List.insertionSort orgOrder
          s.org_orgcomunitarias).map OrganizacionComunitaria.clearJoins = out := by
        injection hout2
      subst he
      refine ⟨(List.perm_insertionSort orgOrder _).map
        OrganizacionComunitaria.clearJoins, ?_⟩
      rw [List.Sorted, List.pairwise_map]
      exact (List.sorted_insertionSort orgOrder _).imp (fun h => h)
    · intro f out hout
      have hout2 : Except.ok ((List.insertionSort actOrder
          s.actividades).map Actividad.clearJoins) = Except.ok out := hout
      have he : (List.insertionSort actOrder
          s.actividades).map Actividad.clearJoins = out := by
        injection hout2
      subst he
      refine ⟨(List.perm_insertionSort actOrder _).map Actividad.clearJoins, ?_⟩
      rw [List.Sorted, List.pairwise_map]
      exact (List.sorted_insertionSort actOrder _).imp (fun h => h)

/-- C1 witness: the theorem instantiated on a connected manager and the
one-row store, with concrete distinct filters. -/
theorem C1_filters_ignored_witness :
    get_personas_mayores dbConnected storeOne filterSample =
      get_personas_mayores dbConnected storeOne PersonaFilter.default ∧
    get_organizaciones dbConnected storeOne
        { OrganizacionFilter.default with nombre := "Junta" } =
      get_organizaciones dbConnected storeOne OrganizacionFilter.default ∧
    get_actividades dbConnected storeOne
        { ActividadFilter.default with nombre := "Paseo" } =
      get_actividades dbConnected storeOne ActividadFilter.default ∧
    ([PersonaMayor.clearJoins personaA].Perm
        (storeOne.per_personasmayores.map PersonaMayor.clearJoins) ∧
      [PersonaMayor.clearJoins personaA].Sorted personaOrder) :=
  ⟨(C1_filters_ignored dbConnected storeOne rfl).1.1 filterSample
      PersonaFilter.default,
    (C1_filters_ignored dbConnected storeOne rfl).2.1.1
      { OrganizacionFilter.default with nombre := "Junta" }
      OrganizacionFilter.default,
    (C1_filters_ignored dbConnected storeOne rfl).2.2.1
      { ActividadFilter.default with nombre := "Paseo" } ActividadFilter.default,
    (C1_filters_ignored dbConnected storeOne rfl).1.2 filterSample
      [PersonaMayor.clearJoins personaA] rfl⟩

/-- C5: `insert_actividad` writes to the table named `act_actividades`
(the one `get_dashboard_stats` counts) while `get_actividades` reads the
table named `actividades`; those names differ, and with a connection
held an insert leaves the `actividades` table — and hence every
subsequent `get_actividades` result — unchanged, while the dashboard
activity count grows by one. -/
theorem C5_actividad_table_mismatch :
    insertActividadTable ≠ getActividadesTable ∧
    ∀ (db : DatabaseManager) (s : Store) (a : Actividad),
      db.client.isSome = true →
      ((insert_actividad db s a).store.actividades = s.actividades ∧
       (∀ f : ActividadFilter,
         (get_actividades db (insert_actividad db s a).store f).result =
           (get_actividades db s f).result) ∧
       ∀ stBefore stAfter : DashboardStats,
         (get_dashboard_stats db s).result = .ok stBefore →
         (get_dashboard_stats db (insert_actividad db s a).store).result =
           .ok stAfter →
         stAfter.total_actividades = stBefore.total_actividades + 1) := by
  refine ⟨by decide, ?_⟩
  intro db s a hdb
  obtain ⟨client⟩ := db
  cases client with
  | none => simp at hdb
  | some u =>
    refine ⟨rfl, fun f => rfl, ?_⟩
    intro stBefore stAfter hb ha
    have hb2 := Except.ok.inj hb
    have ha2 := Except.ok.inj ha
    rw [← hb2, ← ha2]
    simp [insert_actividad, List.length_append]

/-- C5 witness: the theorem instantiated on a connected manager, the
sample store, and the sample activity, with the concrete stats records
before and after the insert. -/
theorem C5_actividad_table_mismatch_witness :
    (insert_actividad dbConnected storeSample actB).store.actividades =
      storeSample.actividades ∧
    (⟨2, 1, 2, 0, [], 0, 0⟩ : DashboardStats).total_actividades =
      (⟨2, 1, 1, 0, [], 0, 0⟩ : DashboardStats).total_actividades + 1 ∧
    (get_actividades dbConnected
        (insert_actividad dbConnected storeSample actB).store
        ActividadFilter.default).result =
      (get_actividades dbConnected storeSample ActividadFilter.default).result :=
  ⟨((C5_actividad_table_mismatch.2 dbConnected storeSample actB rfl)).1,
    by
      have h := ((C5_actividad_table_mismatch.2 dbConnected storeSample actB
        rfl)).2.2 ⟨2, 1, 1, 0, [], 0, 0⟩ ⟨2, 1, 2, 0, [], 0, 0⟩ rfl rfl
      exact h,
    ((C5_actividad_table_mismatch.2 dbConnected storeSample actB rfl)).2.1
      ActividadFilter.default⟩

/-- The check-digit class spelt out. -/
theorem isRutDv_iff (d : Char) :
    isRutDv d = true ↔ (d.isDigit = true ∨ d = 'K' ∨ d = 'k') := by
  simp [isRutDv, or_assoc]

/-- Characterization of the RUT regex match: exactly the char lists made
of 7 or 8 digits, a dash, and one check character. -/
theorem rutMatch_characterization (cs : List Char) :
    rutMatch cs = true ↔
      ∃ (ds : List Char) (d : Char),
        cs = ds ++ ['-', d] ∧ (ds.length = 7 ∨ ds.length = 8) ∧
        (∀ c ∈ ds, c.isDigit = true) ∧ isRutDv d = true := by
  constructor
  · intro h
    rw [rutMatch, Bool.or_eq_true] at h
    rcases h with h | h <;> rw [Bool.and_eq_true] at h
    · obtain ⟨hdig, hm⟩ := h
      split at hm
      · rename_i d heq
        have hlen : 7 ≤ cs.length := by
          have := congrArg List.length heq
          simp at this
          omega
        refine ⟨cs.take 7, d, ?_, Or.inl ?_, ?_, hm⟩
        · conv_lhs => rw [← List.take_append_drop 7 cs]
          rw [heq]
        · simp [List.length_take]
          omega
        · intro c hc
          exact List.all_eq_true.mp hdig c hc
      · exact absurd hm (by simp)
    · obtain ⟨hdig, hm⟩ := h
      split at hm
      · rename_i d heq
        have hlen : 8 ≤ cs.length := by
          have := congrArg List.length heq
          simp at this
          omega
        refine ⟨cs.take 8, d, ?_, Or.inr ?_, ?_, hm⟩
        · conv_lhs => rw [← List.take_append_drop 8 cs]
          rw [heq]
        · simp [List.length_take]
          omega
        · intro c hc
          exact List.all_eq_true.mp hdig c hc
      · exact absurd hm (by simp)
  · rintro ⟨ds, d, rfl, hlen, hdig, hdv⟩
    rw [rutMatch, Bool.or_eq_true]
    rcases hlen with h7 | h8
    · refine Or.inl ?_
      rw [Bool.and_eq_true]
      constructor
      · rw [List.take_left' h7]
        exact List.all_eq_true.mpr hdig
      · rw [List.drop_left' h7]
        exact hdv
    · refine Or.inr ?_
      rw [Bool.and_eq_true]
      constructor
      · rw [List.take_left' h8]
        exact List.all_eq_true.mpr hdig
      · rw [List.drop_left' h8]
        exact hdv

/-- C6: the national-id validator returns true for exactly the strings
made of 7 or 8 ASCII digits, a literal dash, and one final character
that is a digit or the letter K/k; in particular it accepts
"12345678-9" and "1234567-K" and rejects "12345678", "123-45" and
"12345678-X". -/
theorem C6_rut_validator :
    (∀ s : String, validate_rut s = true ↔
      ∃ (ds : List Char) (d : Char),
        s.data = ds ++ ['-', d] ∧ (ds.length = 7 ∨ ds.length = 8) ∧
        (∀ c ∈ ds, c.isDigit = true) ∧
        (d.isDigit = true ∨ d = 'K' ∨ d = 'k')) ∧
    validate_rut ("12345678-9") = true ∧
    validate_rut ("1234567-K") = true ∧
    validate_rut ("12345678") = false ∧
    validate_rut ("123-45") = false ∧
    validate_rut ("12345678-X") = false := by
  refine ⟨?_, by decide, by decide, by decide, by decide, by decide⟩
  intro s
  rw [validate_rut, rutMatch_characterization]
  constructor
  · rintro ⟨ds, d, h1, h2, h3, h4⟩
    exact ⟨ds, d, h1, h2, h3, (isRutDv_iff d).mp h4⟩
  · rintro ⟨ds, d, h1, h2, h3, h4⟩
    exact ⟨ds, d, h1, h2, h3, (isRutDv_iff d).mpr h4⟩

/-- C6 witness: the characterization applied to a concrete accepted
string, producing its decomposition. -/
theorem C6_rut_validator_witness :
    ∃ (ds : List Char) (d : Char),
      ("12345678-9" : String).data = ds ++ ['-', d] ∧
      (ds.length = 7 ∨ ds.length = 8) ∧
      (∀ c ∈ ds, c.isDigit = true) ∧
      (d.isDigit = true ∨ d = 'K' ∨ d = 'k') :=
  (C6_rut_validator.1 ("12345678-9")).mp (by decide)

end CTest
